import Mathlib

/-!
Verification development for the Pollution Analytics Engine
(`analysis_core.py`, `data_manager.py`).

Conventions of the shallow embedding:
* Measured values are rationals (`ℚ`); a missing value (pandas `NaN`)
  is `Option.none`.
* A data-frame column for one pollutant is a `List (Option ℚ)`;
  a time series is a `List (Nat × Option ℚ)` of (timestamp, value) rows,
  timestamps counted in hours.
* Frames with extra columns are `List (α × Option ℚ)`: the payload `α`
  carries all other cells of a row untouched.
* Fallible operations return `Except String _`; the Python code returns
  a dict with an `'error'` key and never raises on these paths.
* Results of external statistical libraries (sklearn's
  `LinearRegression.predict`, pandas `rolling(...).mean()`, statsmodels
  `ARIMA`, sklearn `RandomForestRegressor`) enter as explicit oracle
  arguments: a sub-method that may fail is an `Option`-valued oracle,
  `none` standing for a caught exception recorded in the result.
* `float` arithmetic is modelled exactly over `ℚ`; the square root used
  by `pandas.std` is `Real.sqrt` over `ℝ`; a division by zero that
  produces `inf`/`NaN` in numpy is modelled by `Option ℚ` with `none`
  for the non-finite outcome (never by Lean's `x / 0 = 0`).
-/

namespace Vitaly

/-- Python's built-in `round`: round half to even (banker's rounding),
as applied to the exact value of the argument. -/
def pythonRound (q : ℚ) : ℤ :=
  let n : ℤ := ⌊q⌋
  let f : ℚ := q - n
  if f < 1/2 then n
  else if 1/2 < f then n + 1
  else if Even n then n else n + 1

/-! ### AQI calculator (`analysis_core.py`, lines 248-353) -/

/-- Fixed index scale of `calculate_single_aqi`:
`aqi_breakpoints = [0, 50, 100, 150, 200, 300, 500]`. -/
def aqi_breakpoints : List ℚ := [0, 50, 100, 150, 200, 300, 500]

/-- Entry `i` of the fixed index scale (`aqi_breakpoints[i]`). -/
def sIdx (i : Nat) : ℚ := aqi_breakpoints.getD i 0

/-- The fixed index scale as integers, for stating results of the
rounded index. -/
def aqiScaleZ : List ℤ := [0, 50, 100, 150, 200, 300, 500]

/-- Entry `i` of the integer index scale. -/
def sIdxZ (i : Nat) : ℤ := aqiScaleZ.getD i 0

/-- Loop body of `calculate_single_aqi` (lines 330-338): scan the
breakpoints left to right carrying the index `i` and the previous
breakpoint (`c_low = breakpoints[i-1] if i > 0 else 0`); on the first
breakpoint with `concentration <= breakpoints[i]` return the rounded
piecewise-linear interpolation, otherwise fall through to 500. -/
def aqiScan (concentration : ℚ) : ℚ → Nat → List ℚ → ℤ
  | _, _, [] => 500
  | c_low, i, b :: rest =>
    if concentration ≤ b then
      pythonRound ((sIdx (i+1) - sIdx i) / (b - c_low) * (concentration - c_low) + sIdx i)
    else aqiScan concentration b (i+1) rest

/-- Embedding of `calculate_single_aqi(concentration, breakpoints)` (lines 326-340). -/
def calculate_single_aqi (concentration : ℚ) (breakpoints : List ℚ) : ℤ :=
  aqiScan concentration 0 0 breakpoints

/-- Configuration entry of `pollutants_config`: unit string and
breakpoint list. -/
structure PollutantConfig where
  unit : String
  breakpoints : List ℚ

/-- The default PM2.5 breakpoint table (line 262). -/
def pm25_breakpoints : List ℚ := [12, 35.4, 55.4, 150.4, 250.4]

/-- The built-in default `pollutants_config` (lines 260-267). -/
def default_pollutants_config : List (String × PollutantConfig) :=
  [("PM2.5", { unit := "μg/m³", breakpoints := pm25_breakpoints }),
   ("PM10", { unit := "μg/m³", breakpoints := [54, 154, 254, 354, 424] }),
   ("NO2", { unit := "ppb", breakpoints := [53, 100, 360, 649, 1249] }),
   ("SO2", { unit := "ppb", breakpoints := [35, 75, 185, 304, 604] }),
   ("CO", { unit := "ppm", breakpoints := [4.4, 9.4, 12.4, 15.4, 30.4] })]

/-- Category label and color for an AQI value (lines 283-300). -/
def aqiCategoryColor (aqi_value : ℤ) : String × String :=
  if aqi_value ≤ 50 then ("Хорошо", "green")
  else if aqi_value ≤ 100 then ("Удовлетворительно", "yellow")
  else if aqi_value ≤ 150 then ("Вредно для чувствительных групп", "orange")
  else if aqi_value ≤ 200 then ("Вредно", "red")
  else if aqi_value ≤ 300 then ("Очень вредно", "purple")
  else ("Опасно", "maroon")

/-- Embedding of `generate_health_advice(category)` (lines 343-353). -/
def generate_health_advice (category : String) : String :=
  if category = "Хорошо" then
    "Качество воздуха удовлетворительное, опасности для здоровья нет"
  else if category = "Удовлетворительно" then
    "Качество воздуха приемлемое, однако у некоторых людей может быть легкое раздражение"
  else if category = "Вредно для чувствительных групп" then
    "Члены чувствительных групп могут испытывать последствия для здоровья"
  else if category = "Вредно" then
    "Каждый может начать испытывать последствия для здоровья"
  else if category = "Очень вредно" then
    "Предупреждение о вреде для здоровья: риск воздействия повышен"
  else if category = "Опасно" then
    "Чрезвычайная ситуация для здоровья: все население может пострадать"
  else "Рекомендации недоступны"

/-- Per-pollutant record placed in `aqi_results[pollutant]`
(lines 302-309). -/
structure AqiRecord where
  concentration : ℚ
  unit : String
  aqi : ℤ
  category : String
  color : String
  health_advice : String

/-- The `aqi_results['overall']` record (lines 316-321). -/
structure OverallRecord where
  aqi : ℤ
  dominant_pollutant : String
  category : String
  color : String

/-- Column lookup `data[pollutant]` guarded by
`pollutant in data.columns`; the frame is an association list of
column name to column. -/
def lookupColumn {β : Type} (data : List (String × β)) (p : String) : Option β :=
  (data.find? (fun e => e.1 == p)).map (fun e => e.2)

/-- Overall-AQI aggregation (lines 311-321): the maximal per-pollutant
index and the first pollutant attaining it (Python `max` with a key
returns the first maximal element); category and color are inherited
from the dominant pollutant's record. -/
def overallOf (results : List (String × AqiRecord)) : Option OverallRecord :=
  match results with
  | [] => none
  | r0 :: rest =>
    let dom := rest.foldl (fun best e => if best.2.aqi < e.2.aqi then e else best) r0
    some { aqi := dom.2.aqi, dominant_pollutant := dom.1,
           category := dom.2.category, color := dom.2.color }

/-- Loop body of `compute_air_quality_index` (lines 271-309): for one
configured pollutant, skip it if its column is absent
(`pollutant in data.columns`) or if no non-missing reading remains
(`len(concentrations) > 0`); otherwise take
`current_level = concentrations.iloc[-1]` (the LAST reading), compute
its index, classify it and build its record. -/
def aqiEntry (data : List (String × List (Option ℚ)))
    (pc : String × PollutantConfig) : Option (String × AqiRecord) :=
  match lookupColumn data pc.1 with
  | none => none
  | some col =>
    let concentrations := col.filterMap id
    match concentrations.getLast? with
    | none => none
    | some current_level =>
      let aqi_value := calculate_single_aqi current_level pc.2.breakpoints
      let cc := aqiCategoryColor aqi_value
      some (pc.1, { concentration := current_level, unit := pc.2.unit,
                    aqi := aqi_value, category := cc.1, color := cc.2,
                    health_advice := generate_health_advice cc.1 })

/-- Embedding of `compute_air_quality_index(data, pollutants_config)`
(lines 248-323): run the loop body over the configured pollutants in
order, then aggregate the overall record. -/
def compute_air_quality_index (data : List (String × List (Option ℚ)))
    (pollutants_config : List (String × PollutantConfig)) :
    List (String × AqiRecord) × Option OverallRecord :=
  let aqi_results := pollutants_config.filterMap (aqiEntry data)
  (aqi_results, overallOf aqi_results)

/-- Modelled from the spec: "The representative concentration per
pollutant for overall-index computation is the arithmetic mean of all
available (non-missing) readings for that pollutant in the input
window".  Stated for comparison against the source's choice of
`concentrations.iloc[-1]`. -/
def spec_representative_concentration (col : List (Option ℚ)) : Option ℚ :=
  let v := col.filterMap id
  if v.length = 0 then none else some (v.sum / (v.length : ℚ))

/-! ### Series preparation shared by trend / forecast / seasonal
(`analysis_core.py`, lines 29, 131, 372) -/

/-- Drop rows whose target value is missing
(`data[['timestamp', pollutant]].dropna()`). -/
def dropnaRows (rows : List (Nat × Option ℚ)) : List (Nat × ℚ) :=
  rows.filterMap (fun r => r.2.map (fun v => (r.1, v)))

/-- Insert one row into a timestamp-sorted list. -/
def insertByTime (r : Nat × ℚ) : List (Nat × ℚ) → List (Nat × ℚ)
  | [] => [r]
  | s :: rest => if r.1 ≤ s.1 then r :: s :: rest else s :: insertByTime r rest

/-- Embedding of `sort_values('timestamp')`: sort rows by ascending timestamp
(insertion sort; the claims depend only on the multiset of rows and
on ascending order). -/
def sortValuesByTime (l : List (Nat × ℚ)) : List (Nat × ℚ) :=
  l.foldr insertByTime []

/-- The prepared series
`data[['timestamp', pollutant]].dropna().sort_values('timestamp')`. -/
def preparedSeries (rows : List (Nat × Option ℚ)) : List (Nat × ℚ) :=
  sortValuesByTime (dropnaRows rows)

/-! ### Trend estimator (`analysis_core.py`, lines 12-110) -/

/-- Result dict of `calculate_pollution_trend` for `method='composite'`
(the fields the composite path populates; the sklearn fit's
slope/intercept/R², the `period_days` metadata and the unused
`decomposition` block are not modelled).  `change_percentage = none`
models the non-finite float produced by numpy when the first composite
value is zero. -/
structure TrendResult where
  data_points : Nat
  linear_values : List ℚ
  moving_avg : List (Option ℚ)
  composite_trend : List ℚ
  overall_direction : String
  change_percentage : Option ℚ

/-- Composite-trend accumulation (lines 85-99):
`composite_trend = np.zeros(n)`, add the linear-trend values
everywhere, add the moving-average values only at positions where they
are not NaN, and finally divide the WHOLE array by `method_count`.
With `method='composite'` both sub-methods always run, so
`method_count = 2`. -/
def composite_trend_arrays (linear : List ℚ) (ma : List (Option ℚ)) : List ℚ :=
  let step1 := List.zipWith (fun z v => z + v) (List.replicate linear.length (0 : ℚ)) linear
  let step2 := List.zipWith (fun acc m => acc + Option.getD m 0) step1 ma
  step2.map (fun x => x / 2)

/-- Embedding of `calculate_pollution_trend(data, pollutant, method='composite')`
(lines 12-110), with the external fitted arrays passed as oracles:
`linFit` stands for `LinearRegression().fit(...).predict(time_numeric)`
and `rollingMean` for
`time_series[pollutant].rolling(window, center=True).mean()` (whose NaN
edge values are `none`).  Both oracles receive the prepared series.
The `< 10` gate returns the explicit error dict of line 32.  The final
lines 102-108 derive direction and percent change from the first and
last composite values; the percent change divides by `first_val`
without a zero guard, so `first_val = 0` yields a non-finite float,
modelled as `none`. -/
def calculate_pollution_trend (rows : List (Nat × Option ℚ))
    (linFit : List (Nat × ℚ) → List ℚ)
    (rollingMean : List (Nat × ℚ) → List (Option ℚ)) :
    Except String TrendResult :=
  let time_series := preparedSeries rows
  if time_series.length < 10 then
    Except.error "Недостаточно данных для анализа тренда"
  else
    let linear_values := linFit time_series
    let moving_avg := rollingMean time_series
    let composite_trend := composite_trend_arrays linear_values moving_avg
    let first_val := composite_trend.getD 0 0
    let last_val := composite_trend.getLastD 0
    Except.ok
      { data_points := time_series.length
        linear_values := linear_values
        moving_avg := moving_avg
        composite_trend := composite_trend
        overall_direction :=
          if first_val < last_val then "рост"
          else if last_val < first_val then "снижение" else "стабильный"
        change_percentage :=
          if first_val = 0 then none
          else some ((last_val - first_val) / first_val * 100) }

/-- Modelled from the spec: composite as a per-position average over
only the defined sub-method values ("positions where a sub-method has a
missing value are excluded from that position's average").  Stated for
comparison against the source's blanket division by `method_count`. -/
def spec_composite (linear : List ℚ) (ma : List (Option ℚ)) : List ℚ :=
  List.zipWith (fun l m => match m with | some v => (l + v) / 2 | none => l) linear ma

/-! ### Forecaster (`analysis_core.py`, lines 113-245) -/

/-- Final-forecast part of the result dict of `predict_future_levels`
(`method_used` and `final_forecast`; forecast dates and the
min/max/mean/std summary are derived afterwards and not claimed). -/
structure ForecastResult where
  method_used : String
  final_forecast : List ℚ

/-- Embedding of `np.mean(list_of_rows, axis=0)`: element-wise mean of equally long
rows. -/
def npMeanAxis0 (ls : List (List ℚ)) : List ℚ :=
  match ls with
  | [] => []
  | l0 :: _ =>
    (List.range l0.length).map
      (fun i => ((ls.map (fun l => l.getD i 0)).sum) / (ls.length : ℚ))

/-- Embedding of `predict_future_levels(data, pollutant, horizon, method='hybrid')`
(lines 113-221), with the two fitted sub-methods as oracles over the
prepared series: `arimaFit` stands for the `ARIMA(...).fit().forecast`
try-block (lines 148-158) and `ensembleFit` for the Random-Forest
iterative forecaster (lines 161-206); `none` means the sub-method
failed (exception caught / `< 100` feature rows) and its error was
recorded.  The `predictions` dict keeps insertion order: `'arima'`
before `'ensemble'`.  With `method='hybrid'`: two successes average
element-wise (line 210), one success is used and labeled (lines
214-218), none yields the explicit error of line 220. -/
def predict_future_levels (rows : List (Nat × Option ℚ))
    (arimaFit ensembleFit : List (Nat × ℚ) → Option (List ℚ)) :
    Except String ForecastResult :=
  let ts_data := preparedSeries rows
  if ts_data.length < 48 then
    Except.error "Недостаточно данных для прогнозирования"
  else
    let predictions : List (String × List ℚ) :=
      (match arimaFit ts_data with
       | some v => [("arima", v)]
       | none => []) ++
      (match ensembleFit ts_data with
       | some v => [("ensemble", v)]
       | none => [])
    if 2 ≤ predictions.length then
      Except.ok { method_used := "hybrid",
                  final_forecast := npMeanAxis0 (predictions.map (fun e => e.2)) }
    else
      match predictions with
      | [] => Except.error "Не удалось построить прогноз"
      | best :: _ => Except.ok { method_used := best.1, final_forecast := best.2 }

/-! ### Seasonal pattern analyzer (`analysis_core.py`, lines 356-426) -/

/-- One row of the `hourly_patterns` aggregation (mean and count per
hour; the `std` column needs a square root and is not claimed). -/
structure HourlyPattern where
  hour : Nat
  mean : ℚ
  count : Nat

/-- Embedding of `hourly_patterns['mean'].idxmax()`: the first pattern attaining the
maximal mean. -/
def peakOf (l : List HourlyPattern) : HourlyPattern :=
  match l with
  | [] => { hour := 0, mean := 0, count := 0 }
  | x :: xs => xs.foldl (fun best e => if best.mean < e.mean then e else best) x

/-- Result of `analyze_seasonal_patterns` for the default
`period='daily'` (the period used by the GUI caller). -/
structure SeasonalResult where
  hourly_patterns : List HourlyPattern
  peak_hour : Nat × ℚ

/-- Embedding of `analyze_seasonal_patterns(data, pollutant, period='daily')`
(lines 356-426): prepare the series, gate on `len < 168` (line 374,
"Минимум 1 неделя данных") with the explicit error of line 375, then
aggregate mean/count by hour of day (timestamps are hour counts, so
the hour of day is `t % 24`; pandas `groupby` sorts the keys) and
identify the peak hour.  The optional scipy ANOVA block only annotates
the result and is not modelled. -/
def analyze_seasonal_patterns (rows : List (Nat × Option ℚ)) :
    Except String SeasonalResult :=
  let ts_data := preparedSeries rows
  if ts_data.length < 168 then
    Except.error "Недостаточно данных для сезонного анализа"
  else
    let hourly_patterns := (List.range 24).filterMap (fun h =>
      let vals := ((ts_data.filter (fun r => r.1 % 24 == h)).map (fun r => r.2))
      if vals.length = 0 then none
      else some { hour := h, mean := vals.sum / (vals.length : ℚ), count := vals.length })
    let peak := peakOf hourly_patterns
    Except.ok { hourly_patterns := hourly_patterns, peak_hour := (peak.hour, peak.mean) }

/-! ### Outlier detectors (`data_manager.py`, lines 111-286) -/

/-- Column of non-missing target values of a frame
(`working_data[pollutant_column]` after
`dropna(subset=[pollutant_column])`). -/
def targetValues {α : Type} (data : List (α × Option ℚ)) : List ℚ :=
  (data.filter (fun r => r.2.isSome)).filterMap (fun r => r.2)

/-- Sort a list of rationals ascending (for median and quantiles). -/
def sortedQ (l : List ℚ) : List ℚ := l.mergeSort (fun a b => a ≤ b)

/-- Embedding of `pandas.Series.mean()`. -/
def meanQ (l : List ℚ) : ℚ := l.sum / (l.length : ℚ)

/-- Embedding of `pandas.Series.median()`: middle element of the sorted values, or
the average of the two middle elements for an even count. -/
def medianQ (l : List ℚ) : ℚ :=
  let s := sortedQ l
  let n := s.length
  if n % 2 = 1 then s.getD (n / 2) 0
  else (s.getD (n / 2 - 1) 0 + s.getD (n / 2) 0) / 2

/-- Square of `pandas.Series.std()` (sample variance, `ddof=1`);
rational, hence kept separate from the square root. -/
def varQ (l : List ℚ) : ℚ :=
  ((l.map (fun x => (x - meanQ l) ^ 2)).sum) / ((l.length - 1 : ℕ) : ℚ)

/-- Embedding of `pandas.Series.std()` (`ddof=1`). -/
noncomputable def sampleStd (l : List ℚ) : ℝ := Real.sqrt ((varQ l : ℚ) : ℝ)

/-- Embedding of `mad = (values - median).abs().median()` (line 148). -/
def madQ (l : List ℚ) : ℚ :=
  medianQ (l.map (fun x => |x - medianQ l|))

/-- Embedding of `pandas.Series.quantile(q)` with the default linear interpolation:
position `h = q*(n-1)` between the sorted order statistics. -/
def quantileQ (l : List ℚ) (q : ℚ) : ℚ :=
  let s := sortedQ l
  let n := s.length
  let h := q * ((n - 1 : ℕ) : ℚ)
  let lo := (⌊h⌋).toNat
  let frac := h - (lo : ℚ)
  s.getD lo 0 + frac * (s.getD (lo + 1) 0 - s.getD lo 0)

/-- Threshold selection of `detect_anomalies_mad` (lines 138-144):
`{'low': 3.5, 'medium': 3.0, 'high': 2.5}.get(sensitivity, 3.0)`,
overridden for `'auto'` by the coefficient-of-variation rule
`cv = std/mean`.  When `mean == 0` the Python float division yields
`inf` (std > 0, threshold 3.5) or `NaN` (std = 0, both comparisons
false, threshold 2.5); both cases are modelled explicitly since
division by zero in `ℝ` would silently give 0. -/
noncomputable def mad_threshold (sensitivity : String) (values : List ℚ) : ℚ :=
  if sensitivity = "auto" then
    if meanQ values = 0 then (if varQ values = 0 then 2.5 else 3.5)
    else if (1 : ℝ) < sampleStd values / ((meanQ values : ℚ) : ℝ) then 3.5
    else if (1/2 : ℝ) < sampleStd values / ((meanQ values : ℚ) : ℝ) then 2.8
    else 2.5
  else if sensitivity = "low" then 3.5
  else if sensitivity = "medium" then 3.0
  else if sensitivity = "high" then 2.5
  else 3.0

/-- Stats dict of `detect_anomalies_mad` (lines 163-169).  The error
branches (missing column is outside this frame model; empty working
data) return the original frame with `none` in place of stats. -/
structure MadStats where
  anomalies_detected : Nat
  anomaly_percentage : ℚ
  threshold_used : ℚ
  median : ℚ
  lower_bound : ℝ
  upper_bound : ℝ

/-- Embedding of `detect_anomalies_mad(data, pollutant_column, sensitivity)`
(lines 111-173): drop rows with a missing target value, pick the
threshold, compute median and MAD of the remaining values, fall back to
`std/1.4826` when the MAD is zero, form the bounds
`median ± threshold*mad`, and split the working rows by the mask
`(value < lower) | (value > upper)`; the clean frame keeps the
non-anomalous rows unchanged.  (With a single remaining row the
`ddof=1` std is NaN in pandas, the bounds are NaN and nothing is
flagged; the model's zero variance gives the same outcome.) -/
noncomputable def detect_anomalies_mad {α : Type} (data : List (α × Option ℚ))
    (sensitivity : String) : List (α × Option ℚ) × Option MadStats :=
  let working_data := data.filter (fun r => r.2.isSome)
  if working_data.length = 0 then (data, none)
  else
    let values := targetValues data
    let threshold := mad_threshold sensitivity values
    let median := medianQ values
    let mad := madQ values
    let scale : ℝ := if mad = 0 then sampleStd values / 1.4826 else ((mad : ℚ) : ℝ)
    let lower_bound : ℝ := ((median : ℚ) : ℝ) - ((threshold : ℚ) : ℝ) * scale
    let upper_bound : ℝ := ((median : ℚ) : ℝ) + ((threshold : ℚ) : ℝ) * scale
    let mask : α × Option ℚ → Bool := fun r =>
      decide (((r.2.getD 0 : ℚ) : ℝ) < lower_bound) ||
      decide (upper_bound < ((r.2.getD 0 : ℚ) : ℝ))
    let clean_data := working_data.filter (fun r => !(mask r))
    let anomalies_data := working_data.filter mask
    (clean_data,
     some { anomalies_detected := anomalies_data.length
            anomaly_percentage := (anomalies_data.length : ℚ) / (working_data.length : ℚ) * 100
            threshold_used := threshold
            median := median
            lower_bound := lower_bound
            upper_bound := upper_bound })

/-- Stats dict of `detect_anomalies_iqr` (lines 252-256). -/
structure IqrStats where
  anomalies_detected : Nat
  anomaly_percentage : ℚ
  lower_bound : ℚ
  upper_bound : ℚ

/-- Embedding of `detect_anomalies_iqr(data, pollutant_column)` (lines 230-258):
bounds `Q1 - 1.5*IQR` and `Q3 + 1.5*IQR` over the non-missing target
values, same masking and splitting as the MAD detector. -/
def detect_anomalies_iqr {α : Type} (data : List (α × Option ℚ)) :
    List (α × Option ℚ) × Option IqrStats :=
  let working_data := data.filter (fun r => r.2.isSome)
  if working_data.length = 0 then (data, none)
  else
    let values := targetValues data
    let q1 := quantileQ values (1/4)
    let q3 := quantileQ values (3/4)
    let iqr := q3 - q1
    let lower_bound := q1 - 1.5 * iqr
    let upper_bound := q3 + 1.5 * iqr
    let mask : α × Option ℚ → Bool := fun r =>
      decide (r.2.getD 0 < lower_bound) || decide (upper_bound < r.2.getD 0)
    let clean_data := working_data.filter (fun r => !(mask r))
    let anomalies_data := working_data.filter mask
    (clean_data,
     some { anomalies_detected := anomalies_data.length
            anomaly_percentage := (anomalies_data.length : ℚ) / (working_data.length : ℚ) * 100
            lower_bound := lower_bound
            upper_bound := upper_bound })

/-- Stats dict of `detect_anomalies_zscore` (lines 280-284). -/
structure ZScoreStats where
  anomalies_detected : Nat
  anomaly_percentage : ℚ
  threshold_used : ℚ

/-- Embedding of `detect_anomalies_zscore(data, pollutant_column, threshold=3)`
(lines 260-286): flag rows with `|value - mean| / std > threshold`.
(With zero std every pandas z-score is the NaN of `0/0` and nothing is
flagged; the model's division by zero in `ℝ` gives 0 with the same
outcome.) -/
noncomputable def detect_anomalies_zscore {α : Type} (data : List (α × Option ℚ))
    (threshold : ℚ) : List (α × Option ℚ) × Option ZScoreStats :=
  let working_data := data.filter (fun r => r.2.isSome)
  if working_data.length = 0 then (data, none)
  else
    let values := targetValues data
    let mean := meanQ values
    let std := sampleStd values
    let mask : α × Option ℚ → Bool := fun r =>
      decide (((threshold : ℚ) : ℝ) < |(((r.2.getD 0 : ℚ) : ℝ) - ((mean : ℚ) : ℝ)) / std|)
    let clean_data := working_data.filter (fun r => !(mask r))
    let anomalies_data := working_data.filter mask
    (clean_data,
     some { anomalies_detected := anomalies_data.length
            anomaly_percentage := (anomalies_data.length : ℚ) / (working_data.length : ℚ) * 100
            threshold_used := threshold })

/-! ### Concrete scenario fixtures

Small frames and oracle instantiations used by the concrete-scenario
theorems below. -/

/-- A frame with a single PM2.5 column holding two readings 10, 30. -/
def c1data : List (String × List (Option ℚ)) := [("PM2.5", [some 10, some 30])]

/-- Twenty hourly rows of the constant value 10 (a constant series,
enough for the trend gate; the adaptive rolling window is
`min(24, 20//10) = 2`, so the centered rolling mean has a missing
leading value). -/
def c2rows : List (Nat × Option ℚ) := (List.range 20).map (fun t => (t, some (10 : ℚ)))

/-- Oracle for the OLS fit on the constant-10 series: the prediction is
constantly 10. -/
def c2lin : List (Nat × ℚ) → List ℚ := fun ts => List.replicate ts.length 10

/-- Oracle for the centered rolling mean (window 2) on the constant-10
series: NaN at the first position, 10 afterwards. -/
def c2ma : List (Nat × ℚ) → List (Option ℚ) :=
  fun ts => none :: List.replicate (ts.length - 1) (some 10)

/-- Twenty hourly rows of the constant value 0. -/
def c7rows : List (Nat × Option ℚ) := (List.range 20).map (fun t => (t, some (0 : ℚ)))

/-- Oracle for the OLS fit on the constant-0 series. -/
def c7lin : List (Nat × ℚ) → List ℚ := fun ts => List.replicate ts.length 0

/-- Oracle for the centered rolling mean on the constant-0 series. -/
def c7ma : List (Nat × ℚ) → List (Option ℚ) :=
  fun ts => none :: List.replicate (ts.length - 1) (some 0)

/-- Forty-eight hourly rows of the constant value 1 (exactly the
forecast minimum). -/
def c5rows : List (Nat × Option ℚ) := (List.range 48).map (fun t => (t, some (1 : ℚ)))

/-- Twenty-four hourly rows of the constant value 1 (the sample count
the spec calls the canonical seasonal minimum). -/
def c9rows24 : List (Nat × Option ℚ) := (List.range 24).map (fun t => (t, some (1 : ℚ)))

/-- One hundred sixty-eight hourly rows of the constant value 1 (one
week of data, the minimum the source enforces). -/
def c9rows168 : List (Nat × Option ℚ) := (List.range 168).map (fun t => (t, some (1 : ℚ)))

/-- A four-row frame (payload = timestamp) with one extreme value. -/
def c8data : List (Nat × Option ℚ) := [(0, some 1), (1, some 2), (2, some 3), (3, some 100)]

/-- A five-row frame with a missing value and one extreme value. -/
def c10data : List (Nat × Option ℚ) :=
  [(0, some 1), (1, none), (2, some 2), (3, some 3), (4, some 300)]

/-! ## Helper lemmas -/

/-- Banker's rounding never goes below the floor. -/
theorem pythonRound_ge_floor (q : ℚ) : ⌊q⌋ ≤ pythonRound q := by
  simp only [pythonRound]
  split_ifs <;> omega

/-- Banker's rounding never exceeds the floor plus one. -/
theorem pythonRound_le_floor_add_one (q : ℚ) : pythonRound q ≤ ⌊q⌋ + 1 := by
  simp only [pythonRound]
  split_ifs <;> omega

/-- Banker's rounding of an integer is that integer. -/
theorem pythonRound_intCast (n : ℤ) : pythonRound (n : ℚ) = n := by
  simp only [pythonRound, Int.floor_intCast]
  norm_num

/-- Banker's rounding is monotone. -/
theorem pythonRound_mono {q1 q2 : ℚ} (h : q1 ≤ q2) :
    pythonRound q1 ≤ pythonRound q2 := by
  rcases lt_or_eq_of_le (Int.floor_le_floor h) with hlt | heq
  · calc pythonRound q1 ≤ ⌊q1⌋ + 1 := pythonRound_le_floor_add_one q1
      _ ≤ ⌊q2⌋ := by omega
      _ ≤ pythonRound q2 := pythonRound_ge_floor q2
  · simp only [pythonRound]
    rw [heq]
    split_ifs <;> first | omega | (exfalso; linarith)

/-- The fixed index scale is strictly increasing on its seven entries. -/
theorem sIdx_succ_lt (i : Nat) (h : i ≤ 5) : sIdx i < sIdx (i + 1) := by
  interval_cases i <;> norm_num [sIdx, aqi_breakpoints]

/-- Rational and integer renderings of the index scale agree. -/
theorem sIdxZ_cast (i : Nat) (h : i ≤ 6) : ((sIdxZ i : ℤ) : ℚ) = sIdx i := by
  interval_cases i <;> norm_num [sIdx, sIdxZ, aqi_breakpoints, aqiScaleZ]

/-- The integer index scale is monotone on its seven entries. -/
theorem sIdxZ_succ_le (i : Nat) (h : i ≤ 5) : sIdxZ i ≤ sIdxZ (i + 1) := by
  interval_cases i <;> norm_num [sIdxZ, aqiScaleZ]

/-- Every entry of the integer index scale is at most 500. -/
theorem sIdxZ_le_500 (i : Nat) : sIdxZ i ≤ 500 := by
  rcases le_or_lt i 6 with h | h
  · interval_cases i <;> norm_num [sIdxZ, aqiScaleZ]
  · have h0 : aqiScaleZ.getD i 0 = 0 := List.getD_eq_default aqiScaleZ 0 (by simp [aqiScaleZ]; omega)
    simp only [sIdxZ]
    rw [h0]
    norm_num

/-- A concentration beyond every breakpoint falls through the loop
to 500. -/
theorem aqiScan_of_all_lt (c : ℚ) :
    ∀ (rest : List ℚ) (c_low : ℚ) (i : Nat), (∀ b ∈ rest, b < c) →
      aqiScan c c_low i rest = 500 := by
  intro rest
  induction rest with
  | nil => intro c_low i _; rfl
  | cons b tl ih =>
    intro c_low i hall
    have hb : b < c := hall b (by simp)
    simp only [aqiScan]
    rw [if_neg (by linarith)]
    exact ih b (i + 1) (fun x hx => hall x (by simp [hx]))

/-- Scanning from index `i` never returns less than scale entry `i`
(the interpolated value of every later segment sits above it, and the
fall-through value 500 is the scale's ceiling). -/
theorem aqiScan_ge (rest : List ℚ) :
    ∀ (c c_low : ℚ) (i : Nat), List.Sorted (· < ·) rest →
      (∀ b ∈ rest, c_low < b) → i + rest.length ≤ 6 → c_low < c →
      sIdxZ i ≤ aqiScan c c_low i rest := by
  induction rest with
  | nil => intro c c_low i _ _ _ _; simpa [aqiScan] using sIdxZ_le_500 i
  | cons b tl ih =>
    intro c c_low i hs hlow hlen hc
    rw [List.sorted_cons] at hs
    have hlb : c_low < b := hlow b (by simp)
    have hi5 : i ≤ 5 := by simp [List.length_cons] at hlen; omega
    simp only [aqiScan]
    by_cases hcb : c ≤ b
    · rw [if_pos hcb]
      have hslope : (0 : ℚ) ≤ (sIdx (i+1) - sIdx i) / (b - c_low) :=
        le_of_lt (div_pos (by have := sIdx_succ_lt i hi5; linarith) (by linarith))
      have hv : sIdx i ≤ (sIdx (i+1) - sIdx i) / (b - c_low) * (c - c_low) + sIdx i := by
        have := mul_nonneg hslope (by linarith : (0:ℚ) ≤ c - c_low)
        linarith
      calc sIdxZ i = pythonRound ((sIdxZ i : ℤ) : ℚ) := (pythonRound_intCast _).symm
        _ ≤ _ := pythonRound_mono (by rw [sIdxZ_cast i (by omega)]; exact hv)
    · rw [if_neg hcb]
      have hbc : b < c := lt_of_not_le hcb
      have := ih c b (i + 1) hs.2 hs.1 (by simp [List.length_cons] at hlen ⊢; omega) hbc
      exact le_trans (sIdxZ_succ_le i hi5) this

/-- The scanning loop is monotone in the concentration. -/
theorem aqiScan_mono (rest : List ℚ) :
    ∀ (c1 c2 c_low : ℚ) (i : Nat), List.Sorted (· < ·) rest →
      (∀ b ∈ rest, c_low < b) → i + rest.length ≤ 6 → c1 ≤ c2 →
      aqiScan c1 c_low i rest ≤ aqiScan c2 c_low i rest := by
  induction rest with
  | nil => intro c1 c2 c_low i _ _ _ _; simp [aqiScan]
  | cons b tl ih =>
    intro c1 c2 c_low i hs hlow hlen h12
    rw [List.sorted_cons] at hs
    have hlb : c_low < b := hlow b (by simp)
    have hi5 : i ≤ 5 := by simp [List.length_cons] at hlen; omega
    have hslope : (0 : ℚ) ≤ (sIdx (i+1) - sIdx i) / (b - c_low) :=
      le_of_lt (div_pos (by have := sIdx_succ_lt i hi5; linarith) (by linarith))
    simp only [aqiScan]
    by_cases h2 : c2 ≤ b
    · have h1 : c1 ≤ b := le_trans h12 h2
      rw [if_pos h1, if_pos h2]
      refine pythonRound_mono ?_
      have := mul_le_mul_of_nonneg_left (by linarith : c1 - c_low ≤ c2 - c_low) hslope
      linarith
    · have hbc2 : b < c2 := lt_of_not_le h2
      rw [if_neg h2]
      by_cases h1 : c1 ≤ b
      · rw [if_pos h1]
        have hup : (sIdx (i+1) - sIdx i) / (b - c_low) * (c1 - c_low) + sIdx i ≤ sIdx (i+1) := by
          have hmul := mul_le_mul_of_nonneg_left (by linarith : c1 - c_low ≤ b - c_low) hslope
          have hcancel : (sIdx (i+1) - sIdx i) / (b - c_low) * (b - c_low) = sIdx (i+1) - sIdx i :=
            div_mul_cancel₀ _ (by intro h0; rw [sub_eq_zero] at h0; exact absurd h0.symm (ne_of_lt hlb))
          rw [hcancel] at hmul
          linarith
        have hge : sIdxZ (i+1) ≤ aqiScan c2 b (i+1) tl :=
          aqiScan_ge tl c2 b (i+1) hs.2 hs.1
            (by simp [List.length_cons] at hlen ⊢; omega) hbc2
        refine le_trans ?_ hge
        calc pythonRound _ ≤ pythonRound ((sIdxZ (i+1) : ℤ) : ℚ) :=
              pythonRound_mono (by rw [sIdxZ_cast (i+1) (by omega)]; exact hup)
          _ = sIdxZ (i+1) := pythonRound_intCast _
      · rw [if_neg h1]
        exact ih c1 c2 b (i + 1) hs.2 hs.1
          (by simp [List.length_cons] at hlen ⊢; omega) h12

/-- Scanning a concentration equal to the breakpoint at offset `j`
lands exactly on scale entry `i + j + 1`. -/
theorem aqiScan_at_breakpoint (rest : List ℚ) :
    ∀ (c_low : ℚ) (i j : Nat), List.Sorted (· < ·) rest →
      (∀ b ∈ rest, c_low < b) → i + rest.length ≤ 6 → j < rest.length →
      aqiScan (rest.getD j 0) c_low i rest = sIdxZ (i + j + 1) := by
  induction rest with
  | nil => intro _ _ j _ _ _ hj; simp at hj
  | cons b tl ih =>
    intro c_low i j hs hlow hlen hj
    rw [List.sorted_cons] at hs
    have hlb : c_low < b := hlow b (by simp)
    match j with
    | 0 =>
      simp only [List.getD_cons_zero, aqiScan]
      rw [if_pos le_rfl]
      have hcancel : (sIdx (i+1) - sIdx i) / (b - c_low) * (b - c_low) + sIdx i = sIdx (i+1) := by
        rw [div_mul_cancel₀ _ (by intro h0; rw [sub_eq_zero] at h0; exact absurd h0.symm (ne_of_lt hlb))]
        ring
      rw [hcancel, ← sIdxZ_cast (i+1) (by simp [List.length_cons] at hlen; omega),
        pythonRound_intCast]
    | j' + 1 =>
      have hj' : j' < tl.length := by simpa using hj
      have hmem : tl.getD j' 0 ∈ tl := by
        rw [List.getD_eq_getElem tl 0 hj']; exact List.getElem_mem hj'
      have hbc : b < tl.getD j' 0 := hs.1 _ hmem
      simp only [List.getD_cons_succ, aqiScan]
      rw [if_neg (by linarith)]
      have := ih b (i + 1) j' hs.2 hs.1 (by simp [List.length_cons] at hlen ⊢; omega) hj'
      rw [this]
      congr 1
      omega

/-- Lower half-interval evaluation rule for banker's rounding. -/
theorem pythonRound_of_lt_half {q : ℚ} {n : ℤ} (h1 : (n : ℚ) ≤ q)
    (h2 : q < (n : ℚ) + 1/2) : pythonRound q = n := by
  have hf : ⌊q⌋ = n := by
    rw [Int.floor_eq_iff]
    exact ⟨h1, by linarith⟩
  simp only [pythonRound, hf]
  rw [if_pos (by linarith : q - (n : ℚ) < 1/2)]

/-- Upper half-interval evaluation rule for banker's rounding. -/
theorem pythonRound_of_half_lt {q : ℚ} {n : ℤ} (h1 : (n : ℚ) + 1/2 < q)
    (h2 : q < (n : ℚ) + 1) : pythonRound q = n + 1 := by
  have hf : ⌊q⌋ = n := by
    rw [Int.floor_eq_iff]
    exact ⟨by linarith, h2⟩
  simp only [pythonRound, hf]
  rw [if_neg (by linarith : ¬ q - (n : ℚ) < 1/2),
    if_pos (by linarith : (1:ℚ)/2 < q - (n : ℚ))]

/-- Insertion keeps the row count. -/
theorem length_insertByTime (r : Nat × ℚ) (l : List (Nat × ℚ)) :
    (insertByTime r l).length = l.length + 1 := by
  induction l with
  | nil => rfl
  | cons s rest ih =>
    simp only [insertByTime]
    split_ifs <;> simp [ih]

/-- Sorting keeps the row count. -/
theorem length_sortValuesByTime (l : List (Nat × ℚ)) :
    (sortValuesByTime l).length = l.length := by
  induction l with
  | nil => rfl
  | cons r rest ih =>
    simp only [sortValuesByTime, List.foldr_cons] at ih ⊢
    rw [length_insertByTime, ih, List.length_cons]

/-- Dropping missing rows keeps exactly the rows whose value is
present. -/
theorem length_dropnaRows (rows : List (Nat × Option ℚ)) :
    (dropnaRows rows).length = (rows.filter (fun r => r.2.isSome)).length := by
  induction rows with
  | nil => rfl
  | cons r rest ih =>
    cases h : r.2 <;>
      simp [dropnaRows, List.filterMap_cons, List.filter_cons, h] <;>
      simpa [dropnaRows] using ih

/-- The prepared series has one row per non-missing input row. -/
theorem length_preparedSeries (rows : List (Nat × Option ℚ)) :
    (preparedSeries rows).length = (rows.filter (fun r => r.2.isSome)).length := by
  rw [preparedSeries, length_sortValuesByTime, length_dropnaRows]

/-- Head step of the composite accumulation. -/
theorem composite_trend_arrays_cons (x : ℚ) (xs : List ℚ) (m : Option ℚ)
    (ms : List (Option ℚ)) :
    composite_trend_arrays (x :: xs) (m :: ms) =
      ((x + m.getD 0) / 2) :: composite_trend_arrays xs ms := by
  simp [composite_trend_arrays, List.replicate_succ]

/-- Position-wise value of the composite accumulation: the sum of the
linear value and the defined-or-zero moving-average value, divided by
the blanket method count 2. -/
theorem composite_trend_arrays_getD :
    ∀ (linear : List ℚ) (ma : List (Option ℚ)) (i : Nat),
      i < linear.length → i < ma.length →
      (composite_trend_arrays linear ma).getD i 0 =
        (linear.getD i 0 + (ma.getD i none).getD 0) / 2 := by
  intro linear
  induction linear with
  | nil => intro ma i hi _; simp at hi
  | cons x xs ih =>
    intro ma i hi hm
    cases ma with
    | nil => simp at hm
    | cons m ms =>
      rw [composite_trend_arrays_cons]
      cases i with
      | zero => simp
      | succ j =>
        simp only [List.getD_cons_succ]
        exact ih ms j (by simpa using hi) (by simpa using hm)

/-- Element-wise mean of two rows has the length of the first row. -/
theorem npMeanAxis0_pair_length (va ve : List ℚ) :
    (npMeanAxis0 [va, ve]).length = va.length := by
  simp [npMeanAxis0]

/-- Element-wise mean of two rows averages the two entries at every
position. -/
theorem npMeanAxis0_pair_getD (va ve : List ℚ) (i : Nat) (hi : i < va.length) :
    (npMeanAxis0 [va, ve]).getD i 0 = (va.getD i 0 + ve.getD i 0) / 2 := by
  simp only [npMeanAxis0]
  rw [List.getD_eq_getElem?_getD, List.getElem?_map, List.getElem?_range hi]
  simp

/-- Splitting a list by a mask partitions its length. -/
theorem length_filter_not_add_length_filter {β : Type} (l : List β) (p : β → Bool) :
    (l.filter (fun x => !(p x))).length + (l.filter p).length = l.length := by
  induction l with
  | nil => rfl
  | cons x xs ih =>
    by_cases h : p x <;> simp [List.filter_cons, h] <;> omega

/-! ## Claim theorems -/

/-- C3: for every pollutant whose breakpoint list is strictly
increasing (with positive thresholds, at most six of them, so that the
Python loop is defined), `calculate_single_aqi` at a concentration
exactly equal to breakpoint `b[i]` returns the scale value `s[i+1]`;
the witness instantiates this at the second default PM2.5 breakpoint
35.4, which maps to index 100. -/
theorem C3_breakpoint_maps_to_scale (bps : List ℚ)
    (hs : List.Sorted (· < ·) bps) (hpos : ∀ b ∈ bps, 0 < b)
    (hlen : bps.length ≤ 6) (i : Nat) (hi : i < bps.length) :
    calculate_single_aqi (bps.getD i 0) bps = sIdxZ (i + 1) := by
  have h := aqiScan_at_breakpoint bps 0 0 i hs hpos (by omega) hi
  simpa [calculate_single_aqi] using h

/-- Witness for C3: a PM2.5 concentration of exactly 35.4 maps to
index 100. -/
theorem C3_witness :
    calculate_single_aqi (35.4 : ℚ) pm25_breakpoints = 100 := by
  have hs : List.Sorted (· < ·) pm25_breakpoints := by
    simp [pm25_breakpoints, List.sorted_cons]
    norm_num
  have hpos : ∀ b ∈ pm25_breakpoints, (0 : ℚ) < b := by
    intro b hb
    simp [pm25_breakpoints] at hb
    rcases hb with h | h | h | h | h <;> rw [h] <;> norm_num
  have h := C3_breakpoint_maps_to_scale pm25_breakpoints hs hpos
    (by simp [pm25_breakpoints]) 1 (by simp [pm25_breakpoints])
  have hg : pm25_breakpoints.getD 1 0 = (35.4 : ℚ) := by simp [pm25_breakpoints]
  have hz : sIdxZ (1 + 1) = 100 := by norm_num [sIdxZ, aqiScaleZ]
  rw [hg, hz] at h
  exact h

/-- C4: for a fixed strictly increasing breakpoint table (positive
thresholds, at most six, the domain on which the Python loop is
defined), the index is monotone non-decreasing in the concentration,
and a concentration exceeding every breakpoint yields index 500. -/
theorem C4_aqi_monotone_and_ceiling (bps : List ℚ)
    (hs : List.Sorted (· < ·) bps) (hpos : ∀ b ∈ bps, 0 < b)
    (hlen : bps.length ≤ 6) :
    (∀ c1 c2 : ℚ, c1 ≤ c2 →
      calculate_single_aqi c1 bps ≤ calculate_single_aqi c2 bps) ∧
    (∀ c : ℚ, (∀ b ∈ bps, b < c) → calculate_single_aqi c bps = 500) := by
  constructor
  · intro c1 c2 h12
    exact aqiScan_mono bps c1 c2 0 0 hs hpos (by omega) h12
  · intro c hall
    exact aqiScan_of_all_lt c bps 0 0 hall

/-- Witness for C4 on the default PM2.5 table: monotonicity between
concentrations 10 and 40, and ceiling 500 at concentration 600. -/
theorem C4_witness :
    calculate_single_aqi (10 : ℚ) pm25_breakpoints ≤
      calculate_single_aqi (40 : ℚ) pm25_breakpoints ∧
    calculate_single_aqi (600 : ℚ) pm25_breakpoints = 500 := by
  have hs : List.Sorted (· < ·) pm25_breakpoints := by
    simp [pm25_breakpoints, List.sorted_cons]
    norm_num
  have hpos : ∀ b ∈ pm25_breakpoints, (0 : ℚ) < b := by
    intro b hb
    simp [pm25_breakpoints] at hb
    rcases hb with h | h | h | h | h <;> rw [h] <;> norm_num
  have h := C4_aqi_monotone_and_ceiling pm25_breakpoints hs hpos
    (by simp [pm25_breakpoints])
  refine ⟨h.1 10 40 (by norm_num), h.2 600 ?_⟩
  intro b hb
  simp [pm25_breakpoints] at hb
  rcases hb with h | h | h | h | h <;> rw [h] <;> norm_num

/-- C6: on a series with fewer non-missing points than the stated
minimum (10 for `calculate_pollution_trend`, 48 for
`predict_future_levels`), the operation returns the explicit
human-readable error result; being a total function into `Except`, it
cannot raise. -/
theorem C6_minimum_points_error (rows : List (Nat × Option ℚ))
    (linFit : List (Nat × ℚ) → List ℚ)
    (rollingMean : List (Nat × ℚ) → List (Option ℚ))
    (arimaFit ensembleFit : List (Nat × ℚ) → Option (List ℚ)) :
    ((rows.filter (fun r => r.2.isSome)).length < 10 →
      calculate_pollution_trend rows linFit rollingMean =
        Except.error "Недостаточно данных для анализа тренда") ∧
    ((rows.filter (fun r => r.2.isSome)).length < 48 →
      predict_future_levels rows arimaFit ensembleFit =
        Except.error "Недостаточно данных для прогнозирования") := by
  constructor
  · intro h
    have hlen : (preparedSeries rows).length < 10 := by
      rw [length_preparedSeries]; exact h
    simp [calculate_pollution_trend, hlen]
  · intro h
    have hlen : (preparedSeries rows).length < 48 := by
      rw [length_preparedSeries]; exact h
    simp [predict_future_levels, hlen]

/-- Witness for C6: a single-row series triggers both insufficient-data
errors. -/
theorem C6_witness :
    calculate_pollution_trend [((0:Nat), some (1:ℚ))]
        (fun _ => []) (fun _ => []) =
      Except.error "Недостаточно данных для анализа тренда" ∧
    predict_future_levels [((0:Nat), some (1:ℚ))]
        (fun _ => none) (fun _ => none) =
      Except.error "Недостаточно данных для прогнозирования" := by
  have h := C6_minimum_points_error [((0:Nat), some (1:ℚ))]
    (fun _ => []) (fun _ => []) (fun _ => none) (fun _ => none)
  exact ⟨h.1 (by decide), h.2 (by decide)⟩

/-- C2 (amended): with `method='composite'` the composite value at
EVERY position equals the linear value plus the defined-or-zero
moving-average value, divided by the blanket `method_count = 2`; a
position with a missing moving average is still divided by 2 (halving
the linear trend there), not averaged over contributing methods only. -/
theorem C2_composite_blanket_denominator (rows : List (Nat × Option ℚ))
    (linFit : List (Nat × ℚ) → List ℚ)
    (rollingMean : List (Nat × ℚ) → List (Option ℚ))
    (h10 : 10 ≤ (rows.filter (fun r => r.2.isSome)).length)
    (hl : (linFit (preparedSeries rows)).length = (preparedSeries rows).length)
    (hm : (rollingMean (preparedSeries rows)).length = (preparedSeries rows).length) :
    ∃ r : TrendResult,
      calculate_pollution_trend rows linFit rollingMean = Except.ok r ∧
      ∀ i, i < (preparedSeries rows).length →
        r.composite_trend.getD i 0 =
          ((linFit (preparedSeries rows)).getD i 0 +
            ((rollingMean (preparedSeries rows)).getD i none).getD 0) / 2 := by
  have hnot : ¬ (preparedSeries rows).length < 10 := by
    rw [length_preparedSeries]; omega
  simp only [calculate_pollution_trend]
  rw [if_neg hnot]
  refine ⟨_, rfl, ?_⟩
  intro i hi
  exact composite_trend_arrays_getD _ _ i (by rw [hl]; exact hi) (by rw [hm]; exact hi)

/-- Witness for C2 (amended) at a position where the moving average is
defined: there the composite is the genuine two-method average. -/
theorem C2_witness :
    ∃ r : TrendResult,
      calculate_pollution_trend c2rows c2lin c2ma = Except.ok r ∧
      r.composite_trend.getD 1 0 =
        ((c2lin (preparedSeries c2rows)).getD 1 0 +
          ((c2ma (preparedSeries c2rows)).getD 1 none).getD 0) / 2 := by
  obtain ⟨r, hok, hall⟩ := C2_composite_blanket_denominator c2rows c2lin c2ma
    (by decide) (by simp [c2lin]) (by simp [c2ma, length_preparedSeries]; decide)
  exact ⟨r, hok, hall 1 (by rw [length_preparedSeries]; decide)⟩

/-- Counterexample for C2: on a constant-10 series of 20 points the
moving average is missing at position 0; the code's composite there is
`10/2 = 5`, while the spec's contributing-methods-only average is 10. -/
theorem C2_counterexample :
    ((calculate_pollution_trend c2rows c2lin c2ma).toOption.map
        (fun r => r.composite_trend.getD 0 0)) = some 5 ∧
    (spec_composite (c2lin (preparedSeries c2rows))
        (c2ma (preparedSeries c2rows))).getD 0 0 = 10 ∧
    (5 : ℚ) ≠ 10 := by
  have hcount : (c2rows.filter (fun r => r.2.isSome)).length = 20 := by decide
  have hps : (preparedSeries c2rows).length = 20 := by
    rw [length_preparedSeries, hcount]
  have hnot : ¬ (preparedSeries c2rows).length < 10 := by rw [hps]; omega
  have hval : (composite_trend_arrays (c2lin (preparedSeries c2rows))
      (c2ma (preparedSeries c2rows))).getD 0 0 = 5 := by
    rw [composite_trend_arrays_getD (c2lin (preparedSeries c2rows))
      (c2ma (preparedSeries c2rows)) 0 (by simp [c2lin]; omega) (by simp [c2ma])]
    have h1 : (c2lin (preparedSeries c2rows)).getD 0 0 = 10 := by
      simp only [c2lin, hps]
      rfl
    have h2 : (c2ma (preparedSeries c2rows)).getD 0 none = none := by
      simp only [c2ma]
      rfl
    rw [h1, h2]
    norm_num
  refine ⟨?_, ?_, by norm_num⟩
  · simp only [calculate_pollution_trend]
    rw [if_neg hnot]
    simp only [Except.toOption, Option.map_some]
    exact congrArg some hval
  · have h20 : c2lin (preparedSeries c2rows) = 10 :: List.replicate 19 10 := by
      simp only [c2lin, hps]
      rfl
    have hma : c2ma (preparedSeries c2rows) = none :: List.replicate 19 (some 10) := by
      simp only [c2ma, hps]
    rw [h20, hma]
    simp [spec_composite]

/-- C7 (amended): when the composite trend exists, the reported percent
change is `(last - first)/first × 100` of the composite endpoints when
the first composite value is nonzero; when the first value is zero the
division is performed unguarded and the reported value is the
non-finite float (`inf`/`NaN`, modelled `none`), not 0. -/
theorem C7_change_percentage (rows : List (Nat × Option ℚ))
    (linFit : List (Nat × ℚ) → List ℚ)
    (rollingMean : List (Nat × ℚ) → List (Option ℚ))
    (h10 : 10 ≤ (rows.filter (fun r => r.2.isSome)).length) :
    ∃ r : TrendResult,
      calculate_pollution_trend rows linFit rollingMean = Except.ok r ∧
      (r.composite_trend.getD 0 0 ≠ 0 →
        r.change_percentage =
          some ((r.composite_trend.getLastD 0 - r.composite_trend.getD 0 0) /
            r.composite_trend.getD 0 0 * 100)) ∧
      (r.composite_trend.getD 0 0 = 0 → r.change_percentage = none) := by
  have hnot : ¬ (preparedSeries rows).length < 10 := by
    rw [length_preparedSeries]; omega
  simp only [calculate_pollution_trend]
  rw [if_neg hnot]
  refine ⟨_, rfl, ?_, ?_⟩
  · intro hne
    simp only at hne ⊢
    rw [if_neg hne]
  · intro hz
    simp only at hz ⊢
    rw [if_pos hz]

/-- Witness for C7 (amended) on the constant-10 twenty-point series:
the trend result exists and its percent change obeys both the nonzero
formula and the zero-yields-non-finite rule. -/
theorem C7_witness :
    ∃ r : TrendResult,
      calculate_pollution_trend c2rows c2lin c2ma = Except.ok r ∧
      (r.composite_trend.getD 0 0 ≠ 0 →
        r.change_percentage =
          some ((r.composite_trend.getLastD 0 - r.composite_trend.getD 0 0) /
            r.composite_trend.getD 0 0 * 100)) ∧
      (r.composite_trend.getD 0 0 = 0 → r.change_percentage = none) :=
  C7_change_percentage c2rows c2lin c2ma (by decide)

/-- Counterexample for C7: on an all-zero series the first composite
value is 0, and the reported percent change is the non-finite float
(`none`), not the claimed 0. -/
theorem C7_counterexample :
    ((calculate_pollution_trend c7rows c7lin c7ma).toOption.map
        (fun r => r.composite_trend.getD 0 0)) = some 0 ∧
    ((calculate_pollution_trend c7rows c7lin c7ma).toOption.map
        (fun r => r.change_percentage)) = some none ∧
    (none : Option ℚ) ≠ some 0 := by
  have hcount : (c7rows.filter (fun r => r.2.isSome)).length = 20 := by decide
  have hps : (preparedSeries c7rows).length = 20 := by
    rw [length_preparedSeries, hcount]
  have hnot : ¬ (preparedSeries c7rows).length < 10 := by rw [hps]; omega
  have hfirst : (composite_trend_arrays (c7lin (preparedSeries c7rows))
      (c7ma (preparedSeries c7rows))).getD 0 0 = 0 := by
    rw [composite_trend_arrays_getD _ _ 0 (by simp [c7lin]; omega) (by simp [c7ma])]
    simp [c7lin, c7ma, hps]
  refine ⟨?_, ?_, by simp⟩
  · simp only [calculate_pollution_trend]
    rw [if_neg hnot]
    simp only [Except.toOption, Option.map_some]
    exact congrArg some hfirst
  · simp only [calculate_pollution_trend]
    rw [if_neg hnot]
    simp only [Except.toOption, Option.map_some]
    have hcp : (if (composite_trend_arrays (c7lin (preparedSeries c7rows))
        (c7ma (preparedSeries c7rows))).getD 0 0 = 0 then (none : Option ℚ)
        else some (((composite_trend_arrays (c7lin (preparedSeries c7rows))
          (c7ma (preparedSeries c7rows))).getLastD 0 -
            (composite_trend_arrays (c7lin (preparedSeries c7rows))
              (c7ma (preparedSeries c7rows))).getD 0 0) /
          (composite_trend_arrays (c7lin (preparedSeries c7rows))
            (c7ma (preparedSeries c7rows))).getD 0 0 * 100)) = none := by
      rw [if_pos hfirst]
    exact congrArg some hcp

/-- C5: the hybrid forecast combination.  When both sub-methods
succeed, the final forecast is labeled `'hybrid'` and equals the
element-wise mean of the two prediction arrays; when exactly one
succeeds it is used and labeled with its own name; when none succeed
the explicit error result is returned. -/
theorem C5_hybrid_combination (rows : List (Nat × Option ℚ))
    (arimaFit ensembleFit : List (Nat × ℚ) → Option (List ℚ))
    (va ve : List ℚ)
    (h48 : 48 ≤ (rows.filter (fun r => r.2.isSome)).length) :
    (arimaFit (preparedSeries rows) = some va →
      ensembleFit (preparedSeries rows) = some ve →
      ve.length = va.length →
      predict_future_levels rows arimaFit ensembleFit =
        Except.ok { method_used := "hybrid",
                    final_forecast := npMeanAxis0 [va, ve] } ∧
      (npMeanAxis0 [va, ve]).length = va.length ∧
      ∀ i, i < va.length →
        (npMeanAxis0 [va, ve]).getD i 0 = (va.getD i 0 + ve.getD i 0) / 2) ∧
    (arimaFit (preparedSeries rows) = some va →
      ensembleFit (preparedSeries rows) = none →
      predict_future_levels rows arimaFit ensembleFit =
        Except.ok { method_used := "arima", final_forecast := va }) ∧
    (arimaFit (preparedSeries rows) = none →
      ensembleFit (preparedSeries rows) = some ve →
      predict_future_levels rows arimaFit ensembleFit =
        Except.ok { method_used := "ensemble", final_forecast := ve }) ∧
    (arimaFit (preparedSeries rows) = none →
      ensembleFit (preparedSeries rows) = none →
      predict_future_levels rows arimaFit ensembleFit =
        Except.error "Не удалось построить прогноз") := by
  have hnot : ¬ (preparedSeries rows).length < 48 := by
    rw [length_preparedSeries]; omega
  refine ⟨?_, ?_, ?_, ?_⟩
  · intro ha he _
    refine ⟨?_, npMeanAxis0_pair_length va ve,
      fun i hi => npMeanAxis0_pair_getD va ve i hi⟩
    simp only [predict_future_levels]
    rw [if_neg hnot, ha, he]
    simp
  · intro ha he
    simp only [predict_future_levels]
    rw [if_neg hnot, ha, he]
    simp
  · intro ha he
    simp only [predict_future_levels]
    rw [if_neg hnot, ha, he]
    simp
  · intro ha he
    simp only [predict_future_levels]
    rw [if_neg hnot, ha, he]
    simp

/-- Witness for C5: a 48-point series with both oracles succeeding; the
hybrid forecast is labeled `'hybrid'` and its first step averages the
two first-step predictions. -/
theorem C5_witness :
    predict_future_levels c5rows (fun _ => some [2, 4]) (fun _ => some [6, 10]) =
      Except.ok { method_used := "hybrid",
                  final_forecast := npMeanAxis0 [[2, 4], [6, 10]] } ∧
    (npMeanAxis0 [([2, 4] : List ℚ), [6, 10]]).getD 0 0 =
      (([2, 4] : List ℚ).getD 0 0 + ([6, 10] : List ℚ).getD 0 0) / 2 := by
  have h := (C5_hybrid_combination c5rows (fun _ => some [2, 4])
    (fun _ => some [6, 10]) [2, 4] [6, 10] (by decide)).1 rfl rfl (by simp)
  exact ⟨h.1, h.2.2 0 (by simp)⟩

/-- C9 (amended): `analyze_seasonal_patterns` returns the
insufficient-data error exactly when the series has fewer than 168
non-missing points; the enforced minimum is 168 (one week), not 24. -/
theorem C9_seasonal_minimum (rows : List (Nat × Option ℚ)) :
    ((rows.filter (fun r => r.2.isSome)).length < 168 →
      analyze_seasonal_patterns rows =
        Except.error "Недостаточно данных для сезонного анализа") ∧
    (168 ≤ (rows.filter (fun r => r.2.isSome)).length →
      (analyze_seasonal_patterns rows).isOk = true) := by
  constructor
  · intro h
    have hlen : (preparedSeries rows).length < 168 := by
      rw [length_preparedSeries]; exact h
    simp [analyze_seasonal_patterns, hlen]
  · intro h
    have hlen : ¬ (preparedSeries rows).length < 168 := by
      rw [length_preparedSeries]; omega
    simp only [analyze_seasonal_patterns]
    rw [if_neg hlen]
    rfl

/-- Counterexample for C9: a series with exactly 24 non-missing points
(the count the claim calls sufficient) gets the insufficient-data
error. -/
theorem C9_counterexample :
    (c9rows24.filter (fun r => r.2.isSome)).length = 24 ∧
    analyze_seasonal_patterns c9rows24 =
      Except.error "Недостаточно данных для сезонного анализа" := by
  refine ⟨by decide, ?_⟩
  have hc : (c9rows24.filter (fun r => r.2.isSome)).length = 24 := by decide
  have hlen : (preparedSeries c9rows24).length < 168 := by
    rw [length_preparedSeries, hc]; omega
  simp [analyze_seasonal_patterns, hlen]

set_option maxRecDepth 8000 in
/-- Witness for C9 (amended): one row errors out; one week of rows
succeeds. -/
theorem C9_witness :
    analyze_seasonal_patterns [((0:Nat), some (1:ℚ))] =
      Except.error "Недостаточно данных для сезонного анализа" ∧
    (analyze_seasonal_patterns c9rows168).isOk = true := by
  refine ⟨(C9_seasonal_minimum [((0:Nat), some (1:ℚ))]).1 (by decide),
    (C9_seasonal_minimum c9rows168).2 (by decide)⟩

/-- C1 (amended): the concentration `compute_air_quality_index` uses
for a configured, present pollutant with at least one non-missing
reading is the LATEST (last) non-missing reading of the column, and the
pollutant's index is computed from it — not from the arithmetic mean of
the window. -/
theorem C1_concentration_is_latest (data : List (String × List (Option ℚ)))
    (config : List (String × PollutantConfig)) (p : String)
    (cfg : PollutantConfig) (col : List (Option ℚ))
    (hnd : (config.map Prod.fst).Nodup)
    (hmem : (p, cfg) ∈ config)
    (hcol : lookupColumn data p = some col)
    (hne : col.filterMap id ≠ []) :
    (((compute_air_quality_index data config).1.find? (fun e => e.1 == p)).map
        (fun e => e.2.concentration)) = (col.filterMap id).getLast? ∧
    (((compute_air_quality_index data config).1.find? (fun e => e.1 == p)).map
        (fun e => e.2.aqi)) =
      (col.filterMap id).getLast?.map
        (fun c => calculate_single_aqi c cfg.breakpoints) := by
  induction config with
  | nil => simp at hmem
  | cons qc rest ih =>
    obtain ⟨q, qcfg⟩ := qc
    rw [List.map_cons, List.nodup_cons] at hnd
    by_cases hq : q = p
    · subst hq
      have hcfg : qcfg = cfg := by
        rcases List.mem_cons.mp hmem with heq | hmem2
        · exact (congrArg Prod.snd heq).symm
        · exact absurd (List.mem_map_of_mem Prod.fst hmem2) hnd.1
      subst hcfg
      cases hg : (col.filterMap id).getLast? with
      | none => exact absurd (List.getLast?_eq_none_iff.mp hg) hne
      | some lastv =>
        have hentry : aqiEntry data (q, qcfg) =
            some (q, { concentration := lastv, unit := qcfg.unit,
                       aqi := calculate_single_aqi lastv qcfg.breakpoints,
                       category := (aqiCategoryColor (calculate_single_aqi lastv qcfg.breakpoints)).1,
                       color := (aqiCategoryColor (calculate_single_aqi lastv qcfg.breakpoints)).2,
                       health_advice := generate_health_advice
                         (aqiCategoryColor (calculate_single_aqi lastv qcfg.breakpoints)).1 }) := by
          simp only [aqiEntry, hcol, hg]
        simp only [compute_air_quality_index]
        rw [List.filterMap_cons_some hentry]
        rw [List.find?_cons_of_pos _ (by simp)]
        simp [hg]
    · have hmem2 : (p, cfg) ∈ rest := by
        rcases List.mem_cons.mp hmem with heq | hmem2
        · exact absurd (congrArg Prod.fst heq).symm hq
        · exact hmem2
      have ihh := ih hnd.2 hmem2
      cases he : aqiEntry data (q, qcfg) with
      | none =>
        simp only [compute_air_quality_index] at ihh ⊢
        rw [List.filterMap_cons_none he]
        exact ihh
      | some e =>
        have hkey : e.1 = q := by
          rcases hl : lookupColumn data q with _ | qcol
          · simp [aqiEntry, hl] at he
          · rcases hgl : (qcol.filterMap id).getLast? with _ | v
            · simp [aqiEntry, hl, hgl] at he
            · simp only [aqiEntry, hl, hgl, Option.some.injEq] at he
              rw [← he]
        simp only [compute_air_quality_index] at ihh ⊢
        rw [List.filterMap_cons_some he]
        rw [List.find?_cons_of_neg _ (by simp [hkey]; exact hq)]
        exact ihh

/-- Witness for C1 (amended): on the two-reading PM2.5 frame the
recorded concentration is the last element of the non-missing
readings. -/
theorem C1_witness :
    (((compute_air_quality_index c1data default_pollutants_config).1.find?
        (fun e => e.1 == "PM2.5")).map (fun e => e.2.concentration)) =
      ([some 10, some (30 : ℚ)].filterMap id).getLast? := by
  exact (C1_concentration_is_latest c1data default_pollutants_config "PM2.5"
    { unit := "μg/m³", breakpoints := pm25_breakpoints } [some 10, some 30]
    (by decide) (by simp [default_pollutants_config]) rfl (by decide)).1

/-- Counterexample for C1: with PM2.5 readings 10 then 30, the code
uses the latest reading 30 (index 88, which also becomes the overall
index), while the spec's representative concentration is the mean 20
(index 67). -/
theorem C1_counterexample :
    (((compute_air_quality_index c1data default_pollutants_config).1.find?
        (fun e => e.1 == "PM2.5")).map (fun e => e.2.concentration)) = some 30 ∧
    spec_representative_concentration [some 10, some 30] = some 20 ∧
    some (30 : ℚ) ≠ some (20 : ℚ) ∧
    (((compute_air_quality_index c1data default_pollutants_config).1.find?
        (fun e => e.1 == "PM2.5")).map (fun e => e.2.aqi)) = some 88 ∧
    ((compute_air_quality_index c1data default_pollutants_config).2.map
        (fun o => o.aqi)) = some 88 ∧
    calculate_single_aqi 20 pm25_breakpoints = 67 ∧
    (88 : ℤ) ≠ 67 := by
  have ha30 : calculate_single_aqi 30 pm25_breakpoints = 88 := by
    simp only [calculate_single_aqi, pm25_breakpoints, aqiScan]
    rw [if_neg (by norm_num : ¬ (30:ℚ) ≤ 12), if_pos (by norm_num : (30:ℚ) ≤ 35.4)]
    have hv : (sIdx 2 - sIdx 1) / ((35.4:ℚ) - 12) * (30 - 12) + sIdx 1 = 1150/13 := by
      norm_num [sIdx, aqi_breakpoints]
    rw [hv]
    exact pythonRound_of_lt_half (by norm_num) (by norm_num)
  have ha20 : calculate_single_aqi 20 pm25_breakpoints = 67 := by
    simp only [calculate_single_aqi, pm25_breakpoints, aqiScan]
    rw [if_neg (by norm_num : ¬ (20:ℚ) ≤ 12), if_pos (by norm_num : (20:ℚ) ≤ 35.4)]
    have hv : (sIdx 2 - sIdx 1) / ((35.4:ℚ) - 12) * (20 - 12) + sIdx 1 = 7850/117 := by
      norm_num [sIdx, aqi_breakpoints]
    rw [hv]
    exact pythonRound_of_lt_half (by norm_num) (by norm_num)
  have e1 : aqiEntry c1data ("PM2.5", { unit := "μg/m³", breakpoints := pm25_breakpoints }) =
      some ("PM2.5",
            { concentration := 30
              unit := "μg/m³"
              aqi := calculate_single_aqi 30 pm25_breakpoints
              category := (aqiCategoryColor (calculate_single_aqi 30 pm25_breakpoints)).1
              color := (aqiCategoryColor (calculate_single_aqi 30 pm25_breakpoints)).2
              health_advice := generate_health_advice
                (aqiCategoryColor (calculate_single_aqi 30 pm25_breakpoints)).1 }) := rfl
  have hlist : List.filterMap (aqiEntry c1data) default_pollutants_config =
      [("PM2.5",
        { concentration := 30
          unit := "μg/m³"
          aqi := calculate_single_aqi 30 pm25_breakpoints
          category := (aqiCategoryColor (calculate_single_aqi 30 pm25_breakpoints)).1
          color := (aqiCategoryColor (calculate_single_aqi 30 pm25_breakpoints)).2
          health_advice := generate_health_advice
            (aqiCategoryColor (calculate_single_aqi 30 pm25_breakpoints)).1 })] := by
    rw [default_pollutants_config]
    rw [List.filterMap_cons_some e1]
    rw [List.filterMap_cons_none rfl, List.filterMap_cons_none rfl,
      List.filterMap_cons_none rfl, List.filterMap_cons_none rfl,
      List.filterMap_nil]
  have hspec : spec_representative_concentration [some 10, some 30] = some 20 := by
    have hfm : List.filterMap id [some (10:ℚ), some 30] = [10, 30] := rfl
    simp only [spec_representative_concentration, hfm]
    norm_num
  refine ⟨?_, hspec, by norm_num, ?_, ?_, ha20, by norm_num⟩
  · simp only [compute_air_quality_index, hlist]
    rw [List.find?_cons_of_pos _ (by simp)]
    rfl
  · simp only [compute_air_quality_index, hlist]
    rw [List.find?_cons_of_pos _ (by simp)]
    exact congrArg some ha30
  · simp only [compute_air_quality_index, hlist, overallOf]
    exact congrArg some ha30

/-- C8: the MAD detector's algorithm on a frame with at least one
non-missing target value: the reported median is the median of the
non-missing values; the bounds are `median ± threshold·scale` where the
scale is the MAD `median(|values - median|)`, falling back to
`std/1.4826` when the MAD is zero; a working row survives into the
clean frame exactly when its value lies inside the bounds; and the
threshold comes from the sensitivity map
`{low: 3.5, medium: 3.0, high: 2.5}` or, for `'auto'` (with a nonzero
mean, so that the coefficient of variation is finite), from the CV rule
`3.5 if CV>1.0, 2.8 if CV>0.5, else 2.5`. -/
theorem C8_mad_algorithm {α : Type} (data : List (α × Option ℚ))
    (sensitivity : String)
    (h : 0 < (data.filter (fun r => r.2.isSome)).length) :
    ((detect_anomalies_mad data sensitivity).2.map (fun st => st.median)) =
      some (medianQ (targetValues data)) ∧
    ((detect_anomalies_mad data sensitivity).2.map (fun st => st.threshold_used)) =
      some (mad_threshold sensitivity (targetValues data)) ∧
    ((detect_anomalies_mad data sensitivity).2.map (fun st => st.lower_bound)) =
      some (((medianQ (targetValues data) : ℚ) : ℝ) -
        ((mad_threshold sensitivity (targetValues data) : ℚ) : ℝ) *
        (if madQ (targetValues data) = 0 then sampleStd (targetValues data) / 1.4826
         else ((madQ (targetValues data) : ℚ) : ℝ))) ∧
    ((detect_anomalies_mad data sensitivity).2.map (fun st => st.upper_bound)) =
      some (((medianQ (targetValues data) : ℚ) : ℝ) +
        ((mad_threshold sensitivity (targetValues data) : ℚ) : ℝ) *
        (if madQ (targetValues data) = 0 then sampleStd (targetValues data) / 1.4826
         else ((madQ (targetValues data) : ℚ) : ℝ))) ∧
    (∀ r ∈ data.filter (fun r => r.2.isSome),
      r ∈ (detect_anomalies_mad data sensitivity).1 ↔
        ¬(((r.2.getD 0 : ℚ) : ℝ) <
            ((medianQ (targetValues data) : ℚ) : ℝ) -
              ((mad_threshold sensitivity (targetValues data) : ℚ) : ℝ) *
              (if madQ (targetValues data) = 0 then sampleStd (targetValues data) / 1.4826
               else ((madQ (targetValues data) : ℚ) : ℝ)) ∨
          ((medianQ (targetValues data) : ℚ) : ℝ) +
              ((mad_threshold sensitivity (targetValues data) : ℚ) : ℝ) *
              (if madQ (targetValues data) = 0 then sampleStd (targetValues data) / 1.4826
               else ((madQ (targetValues data) : ℚ) : ℝ)) <
            ((r.2.getD 0 : ℚ) : ℝ))) ∧
    (sensitivity = "low" → mad_threshold sensitivity (targetValues data) = 3.5) ∧
    (sensitivity = "medium" → mad_threshold sensitivity (targetValues data) = 3.0) ∧
    (sensitivity = "high" → mad_threshold sensitivity (targetValues data) = 2.5) ∧
    (sensitivity = "auto" → meanQ (targetValues data) ≠ 0 →
      mad_threshold sensitivity (targetValues data) =
        (if (1 : ℝ) < sampleStd (targetValues data) / ((meanQ (targetValues data) : ℚ) : ℝ)
         then 3.5
         else if (1/2 : ℝ) < sampleStd (targetValues data) / ((meanQ (targetValues data) : ℚ) : ℝ)
         then 2.8 else 2.5)) := by
  have hne : ¬ (data.filter (fun r => r.2.isSome)).length = 0 := by omega
  refine ⟨?_, ?_, ?_, ?_, ?_, ?_, ?_, ?_, ?_⟩
  · simp only [detect_anomalies_mad]
    rw [if_neg hne]
    rfl
  · simp only [detect_anomalies_mad]
    rw [if_neg hne]
    rfl
  · simp only [detect_anomalies_mad]
    rw [if_neg hne]
    rfl
  · simp only [detect_anomalies_mad]
    rw [if_neg hne]
    rfl
  · intro r hr
    simp only [detect_anomalies_mad]
    rw [if_neg hne]
    simp only [List.mem_filter, hr, true_and]
    simp [not_or]
  · intro hs
    subst hs
    simp [mad_threshold]
  · intro hs
    subst hs
    simp [mad_threshold]
  · intro hs
    subst hs
    simp [mad_threshold]
  · intro hs hmean
    subst hs
    simp [mad_threshold, hmean]

/-- Witness for C8: a four-row frame with values 1, 2, 3, 100 at
sensitivity `'medium'`; the threshold conjunct instantiates to 3.0. -/
theorem C8_witness :
    0 < (c8data.filter (fun r => r.2.isSome)).length ∧
    mad_threshold "medium" (targetValues c8data) = 3.0 := by
  refine ⟨by decide, ?_⟩
  exact (C8_mad_algorithm c8data "medium" (by decide)).2.2.2.2.2.2.1 rfl

/-- C10: each of the three anomaly detectors, on a frame with at least
one non-missing target value, returns a cleaned frame that is a
sublist of the input rows (same row objects, unmodified, in order),
and the cleaned row count plus the reported `anomalies_detected`
equals the number of input rows whose target value is non-missing. -/
theorem C10_detector_partition {α : Type} (data : List (α × Option ℚ))
    (sensitivity : String) (threshold : ℚ)
    (h : 0 < (data.filter (fun r => r.2.isSome)).length) :
    ((detect_anomalies_mad data sensitivity).1.Sublist data ∧
      ((detect_anomalies_mad data sensitivity).2.map
          (fun st => (detect_anomalies_mad data sensitivity).1.length +
            st.anomalies_detected)) =
        some ((data.filter (fun r => r.2.isSome)).length)) ∧
    ((detect_anomalies_iqr data).1.Sublist data ∧
      ((detect_anomalies_iqr data).2.map
          (fun st => (detect_anomalies_iqr data).1.length +
            st.anomalies_detected)) =
        some ((data.filter (fun r => r.2.isSome)).length)) ∧
    ((detect_anomalies_zscore data threshold).1.Sublist data ∧
      ((detect_anomalies_zscore data threshold).2.map
          (fun st => (detect_anomalies_zscore data threshold).1.length +
            st.anomalies_detected)) =
        some ((data.filter (fun r => r.2.isSome)).length)) := by
  have hne : ¬ (data.filter (fun r => r.2.isSome)).length = 0 := by omega
  refine ⟨⟨?_, ?_⟩, ⟨?_, ?_⟩, ⟨?_, ?_⟩⟩
  · simp only [detect_anomalies_mad]
    rw [if_neg hne]
    exact (List.filter_sublist _).trans (List.filter_sublist _)
  · simp only [detect_anomalies_mad]
    rw [if_neg hne]
    simp only [Option.map_some]
    exact congrArg some (length_filter_not_add_length_filter _ _)
  · simp only [detect_anomalies_iqr]
    rw [if_neg hne]
    exact (List.filter_sublist _).trans (List.filter_sublist _)
  · simp only [detect_anomalies_iqr]
    rw [if_neg hne]
    simp only [Option.map_some]
    exact congrArg some (length_filter_not_add_length_filter _ _)
  · simp only [detect_anomalies_zscore]
    rw [if_neg hne]
    exact (List.filter_sublist _).trans (List.filter_sublist _)
  · simp only [detect_anomalies_zscore]
    rw [if_neg hne]
    simp only [Option.map_some]
    exact congrArg some (length_filter_not_add_length_filter _ _)

/-- Witness for C10: the five-row frame (one missing value, one extreme
value); all three detectors return sublists of the input. -/
theorem C10_witness :
    (detect_anomalies_mad c10data "high").1.Sublist c10data ∧
    (detect_anomalies_iqr c10data).1.Sublist c10data ∧
    (detect_anomalies_zscore c10data 3).1.Sublist c10data := by
  have h := C10_detector_partition c10data "high" 3 (by decide)
  exact ⟨h.1.1, h.2.1.1, h.2.2.1⟩

end Vitaly
